import Mathlib

/-!
Shallow embedding of the pyuvm sequence layer
(`src/pyuvm/s14_15_python_sequences.py`) and of the register item
(`src/pyuvm/s23_pyuvm_reg_item.py`).

Modelling conventions:
* cocotb/UVM queues are FIFO queues; they are embedded as Lean lists with
  `put` appending at the tail and `get` popping at the head.
* A coroutine that would suspend (an `await` on an empty queue or an
  unfired event) is embedded as a `blocked` outcome or as the precondition
  of a step of the transition system.
* Python exceptions (`UVMSequenceError`, `UVMFatalError`, `AssertionError`)
  are embedded as explicit error outcomes; in the source each raise happens
  before any state mutation on its path, so the error outcomes carry the
  unchanged state.
-/

namespace PyUVM

/-- A `uvm_sequence_item`.  `transaction_id` is the unique transaction id
supplied by the `uvm_transaction` base layer (the spec's Item `id`, unique
and assigned at creation); `parent_sequence_id` and `response_id` start out
as Python `None` and are set by `uvm_sequence.start_item` and
`uvm_sequence_item.set_context`.  The three cocotb events
(`start_condition`, `finish_condition`, `item_ready`) carry no data and are
modelled by the synchronisation structure of the transition system below. -/
structure SeqItem where
  transaction_id : Nat
  parent_sequence_id : Option Nat
  response_id : Option (Option Nat × Nat)
deriving Repr, DecidableEq

/-- Modelled from the spec: `uvm_transaction.get_transaction_id` lives in
`s05_base_classes.py`, which is not part of the given sources.  Per the
spec (§3, §6: "a globally unique id per Item instance ... assigned at
creation, immutable") it returns the item's transaction id. -/
def SeqItem.get_transaction_id (self : SeqItem) : Nat :=
  self.transaction_id

/-- `uvm_sequence_item.set_context`: links a response transaction to the
request transaction, `rsp.set_context(req)`:
`self.response_id = (item.parent_sequence_id, item.get_transaction_id())`. -/
def SeqItem.set_context (self : SeqItem) (item : SeqItem) : SeqItem :=
  { self with response_id := some (item.parent_sequence_id, item.get_transaction_id) }

/-- Outcome of `ResponseQueue.get_response` when called with a transaction
id.  `blocked` is the `await self.put_event.wait()` branch (the coroutine
suspends and will rescan after the next insertion); `got` returns the
plucked item together with the remaining queue; `assertionFailed` is the
failure of `assert len(txn_list) == 1` ("Multiple transactions have the
same ID"), the spec's fatal `DuplicateCorrelationId`. -/
inductive GetResponseResult where
  | blocked
  | got (item : SeqItem) (rest : List SeqItem)
  | assertionFailed
deriving Repr, DecidableEq

/-- `ResponseQueue.get_response` with `txn_id` not `None`:
builds `txn_list = [xx for xx in self._queue if xx.transaction_id == txn_id]`;
waits when it is empty, asserts it has exactly one element, then removes
that element from the queue (Python `list.remove` deletes the first
occurrence that compares equal) and returns it. -/
def ResponseQueue.get_response (queue : List SeqItem) (txn_id : Nat) : GetResponseResult :=
  match queue.filter (fun xx => xx.transaction_id == txn_id) with
  | [] => .blocked
  | [x] => .got x (queue.erase x)
  | _ :: _ :: _ => .assertionFailed

/-- `uvm_seq_item_export`: the exchange channel holding the request queue
`req_q`, the response queue `rsp_q` and the `current_item` slot. -/
structure SeqItemExport where
  req_q : List SeqItem
  rsp_q : List SeqItem
  current_item : Option SeqItem
deriving Repr, DecidableEq

/-- Outcome of `uvm_seq_item_export.get_next_item`.  `seqError` is the
`UVMSequenceError` raised when `current_item` is occupied (raised before
any mutation); `blocked` is the suspension on an empty `req_q`; `ok`
returns the item and the new channel state (the export also pulses the
item's `start_condition` and awaits `item_ready`, which the transition
system models). -/
inductive GetNextItemOutcome where
  | seqError (s : SeqItemExport)
  | blocked
  | ok (item : SeqItem) (s : SeqItemExport)
deriving Repr, DecidableEq

/-- `uvm_seq_item_export.get_next_item`: raises `UVMSequenceError`
("You must call item_done() before calling get_next_item again") when
`self.current_item is not None`; otherwise pops `req_q` (suspending while
it is empty) and stores the popped item as `current_item`. -/
def SeqItemExport.get_next_item (s : SeqItemExport) : GetNextItemOutcome :=
  match s.current_item with
  | some _ => .seqError s
  | none =>
    match s.req_q with
    | [] => .blocked
    | i :: rest => .ok i { s with req_q := rest, current_item := some i }

/-- Outcome of `item_done` on the export or on the port.  `seqError` is the
export's `UVMSequenceError` ("You must call get_next_item before calling
item_done"); `fatalError` is the port's `UVMFatalError` ("item_done only
takes uvm_sequence_items as arguments").  Both raises happen before any
mutation, so they carry the unchanged channel state. -/
inductive ItemDoneOutcome where
  | seqError (s : SeqItemExport)
  | fatalError (s : SeqItemExport)
  | ok (s : SeqItemExport)
deriving Repr, DecidableEq

/-- `uvm_seq_item_export.item_done`: raises `UVMSequenceError` when
`current_item is None`; otherwise pulses `finish_condition`, clears
`current_item`, and when `rsp is not None` appends it to the response
queue via `put_response`. -/
def SeqItemExport.item_done (s : SeqItemExport) (rsp : Option SeqItem) : ItemDoneOutcome :=
  match s.current_item with
  | none => .seqError s
  | some _ =>
    .ok { s with
          current_item := none,
          rsp_q := match rsp with
                   | none => s.rsp_q
                   | some r => s.rsp_q ++ [r] }

/-- A Python value passed as the `rsp` argument of
`uvm_seq_item_port.item_done`: `None`, a `uvm_sequence_item`, or any other
object (tagged by a string stand-in for its type). -/
inductive PyValue where
  | pynone
  | seqItem (it : SeqItem)
  | other (tag : String)
deriving Repr, DecidableEq

/-- `uvm_seq_item_port.item_done`: when `rsp is not None` it first checks
`issubclass(type(rsp), uvm_sequence_item)` and raises `UVMFatalError` on
failure, before ever touching the export; then delegates to
`self.export.item_done(rsp)`. -/
def SeqItemPort.item_done (s : SeqItemExport) (rsp : PyValue) : ItemDoneOutcome :=
  match rsp with
  | .pynone => s.item_done none
  | .seqItem it => s.item_done (some it)
  | .other _ => .fatalError s

/-- `uvm_sequence` state: `self.sequencer` (a reference to the bound
`uvm_sequencer`, modelled as a `Nat` handle, or `None`), `self.running_item`
(the most recently sent item, or `None`), and `self.sequence_id`
(Python `id(self)`). -/
structure UvmSequence where
  sequencer : Option Nat
  running_item : Option SeqItem
  sequence_id : Nat
deriving Repr, DecidableEq

/-- The `seqr` argument of `uvm_sequence.start`: `None`, a `uvm_sequencer`
(by reference handle), or any other object (tagged stand-in). -/
inductive SeqrArg where
  | pynone
  | sequencer (r : Nat)
  | other (tag : String)
deriving Repr, DecidableEq

/-- The coroutine calls `uvm_sequence.start` makes after the argument
check: `pre_body`, `body`, `post_body`. -/
inductive SeqHook where
  | preBody
  | body
  | postBody
deriving Repr, DecidableEq

/-- Outcome of `uvm_sequence.start`: `assertionError` is the failure of
`assert isinstance(seqr, uvm_sequencer)` (raised before `self.sequencer`
is assigned, so it carries the unchanged sequence state); `ran` gives the
sequence state after `self.sequencer = seqr` together with the ordered
list of hooks awaited. -/
inductive StartOutcome where
  | assertionError (s : UvmSequence)
  | ran (s : UvmSequence) (hooks : List SeqHook)
deriving Repr, DecidableEq

/-- `uvm_sequence.start(seqr, call_pre_post)`:
`if seqr is not None: assert isinstance(seqr, uvm_sequencer)`; then
`self.sequencer = seqr`; then awaits `pre_body` (when `call_pre_post`),
`body`, and `post_body` (when `call_pre_post`). -/
def UvmSequence.start (s : UvmSequence) (seqr : SeqrArg) (call_pre_post : Bool) :
    StartOutcome :=
  match seqr with
  | .other _ => .assertionError s
  | .pynone =>
    .ran { s with sequencer := none }
      (if call_pre_post then [.preBody, .body, .postBody] else [.body])
  | .sequencer r =>
    .ran { s with sequencer := some r }
      (if call_pre_post then [.preBody, .body, .postBody] else [.body])

/-- Outcome of `uvm_sequence.start_item`: `seqError` is the
`UVMSequenceError` ("Tried start_item in a virtual sequence"); `ok` gives
the updated sequence state and the stamped item that is then passed to
`await self.sequencer.start_item(item)` (which enqueues it on the
sequencer's shared queue — the `startItem` step of the transition system
below). -/
inductive StartItemOutcome where
  | seqError (s : UvmSequence)
  | ok (s : UvmSequence) (stamped : SeqItem)
deriving Repr, DecidableEq

/-- `uvm_sequence.start_item`: raises `UVMSequenceError` when
`self.sequencer is None`; otherwise sets
`item.parent_sequence_id = self.sequence_id`, sets
`self.running_item = item`, and hands the item to the sequencer. -/
def UvmSequence.start_item (s : UvmSequence) (item : SeqItem) : StartItemOutcome :=
  match s.sequencer with
  | none => .seqError s
  | some _ =>
    let stamped := { item with parent_sequence_id := some s.sequence_id }
    .ok { s with running_item := some stamped } stamped

/-- Outcome of `uvm_sequence.get_response`: `seqError` is the
`UVMSequenceError` ("Tried to do get_response in a virtual sequence");
`attributeError` is the Python `AttributeError` hit when
`transaction_id is None` and `self.running_item is None` (reading
`None.transaction_id`); `delegate r t` is the suspension on
`await self.sequencer.get_response(t)` against the bound sequencer `r`. -/
inductive SeqGetResponseOutcome where
  | seqError
  | attributeError
  | delegate (seqr : Nat) (tran_id : Nat)
deriving Repr, DecidableEq

/-- `uvm_sequence.get_response(transaction_id=None)`: raises
`UVMSequenceError` when no sequencer is bound; otherwise
`tran_id = transaction_id if transaction_id is not None else
self.running_item.transaction_id`, and awaits
`self.sequencer.get_response(tran_id)`. -/
def UvmSequence.get_response (s : UvmSequence) (transaction_id : Option Nat) :
    SeqGetResponseOutcome :=
  match s.sequencer with
  | none => .seqError
  | some r =>
    match transaction_id with
    | some t => .delegate r t
    | none =>
      match s.running_item with
      | none => .attributeError
      | some it => .delegate r it.transaction_id

/-!
Transition system for the sequencer pipeline (claim about ordering).

`uvm_sequencer.start_item` does `await self.seq_q.put(item)` (the shared
FIFO queue, unbounded, so the append happens immediately) and then waits
on `item.start_condition`.  `uvm_sequencer.run_phase` perpetually moves
the head of `seq_q` into the export's `req_q`
(`await self.seq_item_export.put_req(next_item)`).  The driver's
`get_next_item` pops the head of `req_q` into `current_item` (possible
only when the slot is free) and, after the producer's `finish_item`
pulses `item_ready`, returns it; `item_done` frees the slot.  Each of
these four atomic state changes is a step; the cooperative scheduler may
interleave them arbitrarily.  `started` records the order of the
`start_item` enqueues and `fetched` the order in which `get_next_item`
hands items to the consumer.
-/

/-- Combined state of one `uvm_sequencer` with its `uvm_seq_item_export`,
plus the two histories used to state the ordering property. -/
structure SequencerState where
  seq_q : List SeqItem
  req_q : List SeqItem
  current_item : Option SeqItem
  started : List SeqItem
  fetched : List SeqItem
deriving Repr, DecidableEq

/-- The initial state: both queues empty, slot free, no history. -/
def SequencerState.init : SequencerState :=
  { seq_q := [], req_q := [], current_item := none, started := [], fetched := [] }

/-- One atomic step of the sequencer pipeline. -/
inductive SeqStep : SequencerState → SequencerState → Prop where
  | startItem (i : SeqItem) (s : SequencerState) :
      SeqStep s { s with seq_q := s.seq_q ++ [i], started := s.started ++ [i] }
  | forward (i : SeqItem) (rest : List SeqItem) (s : SequencerState) :
      s.seq_q = i :: rest →
      SeqStep s { s with seq_q := rest, req_q := s.req_q ++ [i] }
  | fetch (i : SeqItem) (rest : List SeqItem) (s : SequencerState) :
      s.current_item = none →
      s.req_q = i :: rest →
      SeqStep s { s with req_q := rest, current_item := some i,
                         fetched := s.fetched ++ [i] }
  | itemDone (i : SeqItem) (s : SequencerState) :
      s.current_item = some i →
      SeqStep s { s with current_item := none }

/-- States reachable from the initial state by pipeline steps. -/
inductive SeqReachable : SequencerState → Prop where
  | init : SeqReachable SequencerState.init
  | step {s s' : SequencerState} : SeqReachable s → SeqStep s s' → SeqReachable s'

/-!
Register item (`src/pyuvm/s23_pyuvm_reg_item.py`).
-/

/-- `status_t`: "The result of the transaction: IS_OK, HAS_X, or ERROR"
(comment on `self.status` in `pyuvm_reg_item.__init__`; the enum itself
lives in `s24_pyuvm_reg_includes`, outside the given sources). -/
inductive status_t where
  | IS_OK
  | HAS_X
  | ERROR
deriving Repr, DecidableEq

/-- A Python value passed as the `status` argument of `set_status`:
either an actual `status_t` member or any other object. -/
inductive StatusArg where
  | statusVal (v : status_t)
  | other (tag : String)
deriving Repr, DecidableEq

/-- Python `isinstance(status, status_t)`. -/
def StatusArg.isinstance_status_t : StatusArg → Bool
  | .statusVal _ => true
  | .other _ => false

/-- Python `int(b)` for a `bool`. -/
def pyBoolToInt (b : Bool) : Int :=
  if b then 1 else 0

/-- Python's bitwise complement `~n` on an `int`: `~n = -n - 1`. -/
def pyInvert (n : Int) : Int :=
  -n - 1

/-- Python truthiness of an `int`: nonzero is truthy. -/
def pyTruthy (n : Int) : Bool :=
  n != 0

/-- The slice of `pyuvm_reg_item` state that `set_status` touches:
the `status` field and the trail of `error_out` messages emitted
(`error_out(self.header, msg)` reports a fatal error; it is modelled as
appending the message). -/
structure RegItemState where
  status : StatusArg
  errors : List String
deriving Repr, DecidableEq

/-- `pyuvm_reg_item.set_status`:
`if ~isinstance(status, status_t): error_out(...) else: self.status = status`.
The guard applies Python's bitwise `~` to the `bool` result of
`isinstance`, then branches on the truthiness of the resulting `int`. -/
def pyuvm_reg_item.set_status (s : RegItemState) (status : StatusArg) : RegItemState :=
  if pyTruthy (pyInvert (pyBoolToInt status.isinstance_status_t)) then
    { s with errors := s.errors ++ ["Wrong assignment to status Enum"] }
  else
    { s with status := status }

/-! ## Theorems -/

/-- C2: whenever the `current_item` slot of the exchange channel is
occupied (a previous `get_next_item` succeeded and no `item_done` has
been called since), calling `get_next_item` again raises
`UVMSequenceError` without returning an item or mutating the channel. -/
theorem get_next_item_occupied_raises (s : SeqItemExport) (i : SeqItem)
    (h : s.current_item = some i) :
    s.get_next_item = .seqError s := by
  simp [SeqItemExport.get_next_item, h]

/-- Witness for `get_next_item_occupied_raises` at a concrete occupied
channel. -/
theorem get_next_item_occupied_raises_witness :
    SeqItemExport.get_next_item ⟨[], [], some ⟨1, none, none⟩⟩ =
      .seqError ⟨[], [], some ⟨1, none, none⟩⟩ :=
  get_next_item_occupied_raises ⟨[], [], some ⟨1, none, none⟩⟩ ⟨1, none, none⟩ rfl

/-- C3: whenever the `current_item` slot of the exchange channel is empty
(no prior successful `get_next_item`, or the last one was already closed),
calling `item_done` raises `UVMSequenceError` without mutating the
channel, whatever the `rsp` argument. -/
theorem item_done_empty_raises (s : SeqItemExport) (rsp : Option SeqItem)
    (h : s.current_item = none) :
    s.item_done rsp = .seqError s := by
  simp [SeqItemExport.item_done, h]

/-- Witness for `item_done_empty_raises` at a concrete empty channel. -/
theorem item_done_empty_raises_witness :
    SeqItemExport.item_done ⟨[⟨2, none, none⟩], [], none⟩ (some ⟨3, none, none⟩) =
      .seqError ⟨[⟨2, none, none⟩], [], none⟩ :=
  item_done_empty_raises ⟨[⟨2, none, none⟩], [], none⟩ (some ⟨3, none, none⟩) rfl

/-- C4: whenever more than one queued response carries the requested
transaction id, `ResponseQueue.get_response` for that id fails the
`assert len(txn_list) == 1` (the spec's fatal `DuplicateCorrelationId`)
instead of returning an item. -/
theorem get_response_duplicate_id_raises (queue : List SeqItem) (txn_id : Nat)
    (h : 2 ≤ (queue.filter (fun xx => xx.transaction_id == txn_id)).length) :
    ResponseQueue.get_response queue txn_id = .assertionFailed := by
  rcases hq : queue.filter (fun xx => xx.transaction_id == txn_id) with _ | ⟨a, _ | ⟨b, t⟩⟩
  · rw [hq] at h; simp at h
  · rw [hq] at h; simp at h
  · unfold ResponseQueue.get_response
    rw [hq]

/-- Witness for `get_response_duplicate_id_raises` on a queue holding two
responses with transaction id 1. -/
theorem get_response_duplicate_id_raises_witness :
    ResponseQueue.get_response [⟨1, none, none⟩, ⟨1, some 4, none⟩] 1 =
      .assertionFailed :=
  get_response_duplicate_id_raises [⟨1, none, none⟩, ⟨1, some 4, none⟩] 1 (by decide)

/-- C8: `rsp.set_context(req)` sets `rsp.response_id` to exactly the pair
`(req.parent_sequence_id, req.get_transaction_id())` — the request's
producer id and transaction id — and changes nothing else about `rsp`
(`req` is only read). -/
theorem set_context_sets_response_id (rsp req : SeqItem) :
    (rsp.set_context req).response_id =
        some (req.parent_sequence_id, req.transaction_id) ∧
    (rsp.set_context req).transaction_id = rsp.transaction_id ∧
    (rsp.set_context req).parent_sequence_id = rsp.parent_sequence_id ∧
    req.get_transaction_id = req.transaction_id :=
  ⟨rfl, rfl, rfl, rfl⟩

/-- C10: `pyuvm_reg_item.set_status` takes the error branch for every
argument — including genuine `status_t` members — because
`~isinstance(status, status_t)` is the bitwise complement of a `bool`,
which is `-2` or `-1`, both truthy; so `error_out` is always called and
`self.status` is never assigned. -/
theorem set_status_always_errors (s : RegItemState) (status : StatusArg) :
    pyuvm_reg_item.set_status s status =
      { s with errors := s.errors ++ ["Wrong assignment to status Enum"] } := by
  unfold pyuvm_reg_item.set_status
  cases status <;>
    simp [pyTruthy, pyInvert, pyBoolToInt, StatusArg.isinstance_status_t]

/-- C5 counterexample: Python `None` is not a `uvm_sequence_item`, yet
`uvm_seq_item_port.item_done(None)` on a channel whose slot holds an item
raises nothing and mutates state — the `current_item` slot is cleared —
because the `issubclass` check is only performed when `rsp is not None`. -/
theorem port_item_done_none_mutates :
    SeqItemPort.item_done ⟨[], [], some ⟨7, none, none⟩⟩ PyValue.pynone =
        ItemDoneOutcome.ok ⟨[], [], none⟩ ∧
      SeqItemPort.item_done ⟨[], [], some ⟨7, none, none⟩⟩ PyValue.pynone ≠
        ItemDoneOutcome.fatalError ⟨[], [], some ⟨7, none, none⟩⟩ :=
  ⟨rfl, by decide⟩

/-- C5 (amended): for every non-`None` value `rsp` that is not a
`uvm_sequence_item`, `uvm_seq_item_port.item_done(rsp)` raises
`UVMFatalError` and aborts without mutating state — the channel (its
`current_item` slot and response queue included) is returned unchanged
and no completion is signalled. -/
theorem port_item_done_non_item_raises (s : SeqItemExport) (tag : String) :
    SeqItemPort.item_done s (.other tag) = .fatalError s :=
  rfl

/-- C6 counterexample: Python `None` is not a `uvm_sequencer`, yet
`uvm_sequence.start(None)` raises nothing: it assigns
`self.sequencer = None` (here overwriting a previously bound sequencer)
and runs `pre_body`, `body`, and `post_body`, because the `isinstance`
assertion is guarded by `if seqr is not None`. -/
theorem start_none_runs_body :
    UvmSequence.start ⟨some 5, none, 11⟩ SeqrArg.pynone true =
      StartOutcome.ran ⟨none, none, 11⟩
        [SeqHook.preBody, SeqHook.body, SeqHook.postBody] :=
  rfl

/-- C6 (amended): for every non-`None` argument `seqr` that is not a
`uvm_sequencer`, `uvm_sequence.start(seqr)` raises `AssertionError`
("Tried to start a sequence with a non-sequencer") before binding the
sequencer reference or running the body; for a `uvm_sequencer` — and
likewise for `None` — it binds `self.sequencer` to the argument and runs
the pre-hook, the body, and the post-hook. -/
theorem start_typecheck_non_none (s : UvmSequence) (tag : String)
    (call_pre_post : Bool) (r : Nat) :
    UvmSequence.start s (.other tag) call_pre_post = .assertionError s ∧
    UvmSequence.start s (.sequencer r) true =
      .ran { s with sequencer := some r }
        [.preBody, .body, .postBody] ∧
    UvmSequence.start s .pynone true =
      .ran { s with sequencer := none }
        [.preBody, .body, .postBody] :=
  ⟨rfl, rfl, rfl⟩

/-- C7: for a sequence bound to a sequencer that has sent an item via
`start_item` (so `running_item` holds the most recently sent item),
`get_response` with no transaction id defaults the correlation id to that
item's transaction id and suspend-delegates the by-id retrieval to the
bound sequencer. -/
theorem get_response_defaults_to_last_sent (s : UvmSequence) (r : Nat)
    (item : SeqItem) (s' : UvmSequence) (stamped : SeqItem)
    (hseqr : s.sequencer = some r)
    (hstart : s.start_item item = .ok s' stamped) :
    s'.get_response none = .delegate r item.transaction_id := by
  simp only [UvmSequence.start_item, hseqr] at hstart
  cases hstart
  simp [UvmSequence.get_response, hseqr]

/-- Witness for `get_response_defaults_to_last_sent`: the sequence with
id 42 bound to sequencer 3 sends item 9; `get_response(None)` then
delegates retrieval of transaction id 9 to sequencer 3. -/
theorem get_response_defaults_to_last_sent_witness :
    UvmSequence.get_response ⟨some 3, some ⟨9, some 42, none⟩, 42⟩ none =
      .delegate 3 9 :=
  get_response_defaults_to_last_sent ⟨some 3, none, 42⟩ 3 ⟨9, none, none⟩
    ⟨some 3, some ⟨9, some 42, none⟩, 42⟩ ⟨9, some 42, none⟩ rfl rfl

/-- C9: when the response queue holds exactly one item matching the
requested transaction id — a decomposition `pre ++ m :: post` where
neither `pre` nor `post` contains a match — `ResponseQueue.get_response`
removes and returns only that item: every other queued response remains
present and the relative order of the remaining responses (`pre ++ post`)
is unchanged. -/
theorem get_response_unique_match_removes_only_match
    (pre post : List SeqItem) (m : SeqItem) (txn_id : Nat)
    (hm : m.transaction_id = txn_id)
    (hpre : ∀ x ∈ pre, x.transaction_id ≠ txn_id)
    (hpost : ∀ x ∈ post, x.transaction_id ≠ txn_id) :
    ResponseQueue.get_response (pre ++ m :: post) txn_id = .got m (pre ++ post) := by
  have hfil : (pre ++ m :: post).filter (fun xx => xx.transaction_id == txn_id) = [m] := by
    rw [List.filter_append]
    have h1 : pre.filter (fun xx => xx.transaction_id == txn_id) = [] := by
      refine List.filter_eq_nil_iff.mpr ?_
      intro a ha
      simp [hpre a ha]
    have h2 : (m :: post).filter (fun xx => xx.transaction_id == txn_id) = [m] := by
      have h3 : post.filter (fun xx => xx.transaction_id == txn_id) = [] := by
        refine List.filter_eq_nil_iff.mpr ?_
        intro a ha
        simp [hpost a ha]
      simp [List.filter_cons, hm, h3]
    rw [h1, h2, List.nil_append]
  have herase : (pre ++ m :: post).erase m = pre ++ post := by
    have hnotin : m ∉ pre := fun hmem => hpre m hmem hm
    rw [List.erase_append_right (m :: post) hnotin, List.erase_cons_head m post]
  have hstep : ResponseQueue.get_response (pre ++ m :: post) txn_id =
      .got m ((pre ++ m :: post).erase m) := by
    unfold ResponseQueue.get_response
    rw [hfil]
  rw [hstep, herase]

/-- Witness for `get_response_unique_match_removes_only_match`: plucking
transaction id 2 out of the queue `[1, 2, 3]` (by id) returns item 2 and
leaves `[1, 3]` in order. -/
theorem get_response_unique_match_removes_only_match_witness :
    ResponseQueue.get_response
        [⟨1, none, none⟩, ⟨2, none, none⟩, ⟨3, none, none⟩] 2 =
      .got ⟨2, none, none⟩ [⟨1, none, none⟩, ⟨3, none, none⟩] :=
  get_response_unique_match_removes_only_match
    [⟨1, none, none⟩] [⟨3, none, none⟩] ⟨2, none, none⟩ 2
    rfl (by decide) (by decide)

/-- The pipeline invariant: the start-order history is exactly the fetch
history followed by the contents of the export queue and then the
sequencer queue.  Every step preserves it. -/
theorem SeqStep.preserves_pipeline_inv {s s' : SequencerState} (h : SeqStep s s')
    (hinv : s.started = s.fetched ++ s.req_q ++ s.seq_q) :
    s'.started = s'.fetched ++ s'.req_q ++ s'.seq_q := by
  cases h with
  | startItem i s =>
    simp only [hinv, List.append_assoc]
  | forward i rest s hq =>
    simp only [hinv, hq, List.append_assoc, List.singleton_append]
  | fetch i rest s hc hq =>
    simp only [hinv, hq, List.append_assoc, List.singleton_append]
  | itemDone i s hc =>
    exact hinv

/-- Every reachable pipeline state satisfies the pipeline invariant. -/
theorem SeqReachable.pipeline_inv {s : SequencerState} (h : SeqReachable s) :
    s.started = s.fetched ++ s.req_q ++ s.seq_q := by
  induction h with
  | init => rfl
  | step _ hstep ih => exact hstep.preserves_pipeline_inv ih

/-- C1: in every reachable state of the sequencer pipeline — producers
submitting items through `start_item` onto the shared FIFO queue,
`run_phase` forwarding them, the consumer taking them through
`get_next_item` — the list of items the consumer has observed is an
initial segment of the list of items in `start_item` call order: the
consumer sees the items in exactly that order, with no reordering. -/
theorem fetched_follows_start_order {s : SequencerState} (h : SeqReachable s) :
    ∃ t, s.started = s.fetched ++ t := by
  refine ⟨s.req_q ++ s.seq_q, ?_⟩
  rw [h.pipeline_inv, List.append_assoc]

/-- Witness for `fetched_follows_start_order`: two producers enqueue
items 1 and 2; the sequencer forwards item 1, the consumer fetches it,
and item 2 is forwarded; the fetch history `[1]` is an initial segment of
the start history `[1, 2]`. -/
theorem fetched_follows_start_order_witness :
    ∃ t, (SequencerState.mk [] [⟨2, none, none⟩] (some ⟨1, none, none⟩)
            [⟨1, none, none⟩, ⟨2, none, none⟩] [⟨1, none, none⟩]).started =
      (SequencerState.mk [] [⟨2, none, none⟩] (some ⟨1, none, none⟩)
          [⟨1, none, none⟩, ⟨2, none, none⟩] [⟨1, none, none⟩]).fetched ++ t :=
  fetched_follows_start_order
    (SeqReachable.step
      (SeqReachable.step
        (SeqReachable.step
          (SeqReachable.step
            (SeqReachable.step SeqReachable.init
              (SeqStep.startItem ⟨1, none, none⟩ _))
            (SeqStep.startItem ⟨2, none, none⟩ _))
          (SeqStep.forward ⟨1, none, none⟩ [⟨2, none, none⟩] _ rfl))
        (SeqStep.fetch ⟨1, none, none⟩ [] _ rfl rfl))
      (SeqStep.forward ⟨2, none, none⟩ [] _ rfl))

end PyUVM
